import Mathlib

/-!
# AIM (Aalto Interface Metrics) — verification of the result-classification and
session-progress engine of the frontend

This development gives a shallow embedding of the metric registry, the score-band
classifier and the Vuex session store of the AIM frontend, and proves properties
about them.

Source artifacts embedded here:
* `getJudgment` — frontend Results component (src/unnamed/part_009, two identical
  copies at lines 435-444 and 642-651);
* `getJoudgement` — the older Results component
  (src/aim_frontend/src/components/Results.vue, lines 157-165);
* the Vuex store — getters, actions and mutations (src/unnamed/part_010,
  lines 771-968; a second, near-identical copy at lines 969-1160 differs only in
  the `pushResults` spelling, an extra `reconnectCount` field, and `toFixed(4)`
  in place of `toFixed(2)`);
* `isFileTooLarge` — the form component (src/unnamed/part_010, lines 531-536);
* three metric registry documents: the `m1`/`m2` config embedded in
  src/unnamed/part_010 (lines 1264-1374), src/aim_frontend/src/config/metrics.js,
  and src/unnamed/part_013.

JavaScript numbers are modelled as rationals (ℚ): every comparison and the
`toFixed` rounding performed by the code involve only decimal literals and
short decimal values, where binary-float artifacts play no role for the
properties proved here.  Presentation-only string fields that no code path
branches on (metric names, long descriptions, icons, references) are omitted
from the embedding; every field the code reads is kept.
-/

namespace AIM

/-- A value delivered over the websocket for one result cell: a number for
int/float results, a base64 string for b64 results. -/
inductive JsVal where
  | num (q : ℚ)
  | str (s : String)
deriving DecidableEq

/-- One entry of a `scores` array in the registry configs:
`{ id, range: [min, max], description, judgment }` where a `null` end of
`range` is modelled as `none`.  The `judgment` key is present in the config
embedded in part_010 (values like good/normal/bad used as a CSS class) and
absent (`none`) in aim_frontend/src/config/metrics.js.  The presentational
`icon` array is omitted. -/
structure ScoreBand where
  id : String
  rangeMin : Option ℚ
  rangeMax : Option ℚ
  description : String
  judgment : Option String
deriving DecidableEq

/-- One entry of a `results` array in the registry configs.  The `scores` key
is optional: the part_013 config declares no `scores` at all, and b64 results
have none in any config.  Presentational `name`/`description` are omitted. -/
structure ResultDescriptor where
  id : String
  index : ℕ
  type : String
  scores : Option (List ScoreBand)
deriving DecidableEq

/-- One metric of a registry config: its `id` and its ordered `results` list.
Presentational fields (name, description, evidence, relevance, speed,
visualizationType, references, category) are omitted: no property proved here
reads them. -/
structure MetricDescriptor where
  id : String
  results : List ResultDescriptor
deriving DecidableEq

/-- The function getJudgment (score, value) of the newer Results component (part_009):

```
if (score.range[0] === null) { return false }
const min = score.range[0]
const max = score.range[1]
return (min <= value && (value <= max || max === null))
```

When `max` is `null`, the JS disjunct `value <= max` coerces `null` to `0`,
but the disjunction with `max === null` makes the parenthesised test true
either way, so the embedding returns `true` for that side. -/
def getJudgment (score : ScoreBand) (value : ℚ) : Bool :=
  match score.rangeMin with
  | none => false
  | some mn =>
      decide (mn ≤ value) &&
        (match score.rangeMax with
         | none => true
         | some mx => decide (value ≤ mx))

/-- The function getJoudgement (score, value) of the older Results.vue
(aim_frontend/src/components/Results.vue):

```
const min = score.range[0]
const max = score.range[1]
return (min < value && (max > value || max === null))
```

Here a `null` min is coerced to `0` by the JS `<` comparison, and a `null`
max again makes the right conjunct true either way. -/
def getJoudgement (score : ScoreBand) (value : ℚ) : Bool :=
  decide ((match score.rangeMin with | none => 0 | some mn => mn) < value) &&
    (match score.rangeMax with
     | none => true
     | some mx => decide (mx > value))

/-- The classifier of the spec, realized over the per-band test of the code: bands
are tested in declared order and the first band whose `getJudgment` is true
wins.  The Results component renders every band `b` of a result with
`v-show="getJudgment(b, value)"`; since the declared bands of each result are
pairwise disjoint, the first (and only) match is the displayed judgment. -/
def classify (value : ℚ) (bands : List ScoreBand) : Option ScoreBand :=
  bands.find? (fun b => getJudgment b value)

/-- Containment of a value in a band, written as a proposition: the min of the band
is a number `mn` with `mn ≤ value`, and the max side is either unbounded or a
number `mx` with `value ≤ mx`.  This is the rule `getJudgment` actually
implements (see `getJudgment_eq_true_iff`). -/
def bandMatches (b : ScoreBand) (v : ℚ) : Prop :=
  (∃ mn, b.rangeMin = some mn ∧ mn ≤ v) ∧
    (b.rangeMax = none ∨ ∃ mx, b.rangeMax = some mx ∧ v ≤ mx)

/-- Containment exactly as the spec words it: `min ≤ value ≤ max`, where an
unbounded end always satisfies its side — including an unbounded *min*.
This definition follows the wording of the spec, to be compared against the
function `getJudgment` of the code. -/
def specContains (b : ScoreBand) (v : ℚ) : Bool :=
  (match b.rangeMin with
   | none => true
   | some mn => decide (mn ≤ v)) &&
    (match b.rangeMax with
     | none => true
     | some mx => decide (v ≤ mx))

/-- First-match classification under the containment rule as the spec words it. -/
def specClassify (v : ℚ) (bands : List ScoreBand) : Option ScoreBand :=
  bands.find? (fun b => specContains b v)

/-- JS `Number.prototype.toFixed d` followed by the numeric coercion applied
when the resulting string is compared against a band bound: rounding to `d`
decimal digits (ties toward the larger value, as in the toFixed spec). -/
def toFixed (d : ℕ) (q : ℚ) : ℚ :=
  (round (q * 10 ^ d) : ℤ) / 10 ^ d

/-- One row of the output of the `resultsFormatted` getter for a metric:
`{ id: ..., value: ... }` (the presentational `result.name`,
`result.description` and `_show_details` fields are omitted). -/
structure FormattedEntry where
  id : String
  value : JsVal
deriving DecidableEq

/-- The per-value transformation of the `resultsFormatted` getter:

```
if the declared type at this index is float, then
  result = parseFloat(result).toFixed(d)
```

with `d = 2` in the first store of part_010 and `d = 4` in the second.  The
formatted float is a string in JS; every later use of it in classification
coerces it back to exactly the rounded number, which is what is stored here.
Float-typed results always arrive as numbers, so the `str` branch is inert. -/
def formatValue (d : ℕ) (rd : ResultDescriptor) (v : JsVal) : JsVal :=
  if rd.type = "float" then
    match v with
    | .num q => .num (toFixed d q)
    | .str s => .str s
  else v

/-- The `resultsFormatted` getter restricted to one metric: iterates the
stored raw values, pairing each with the declared result descriptor of the
same index (`state.results[key].forEach((result, index) => ...)`). -/
def resultsFormattedMetric (d : ℕ) : List ResultDescriptor → List JsVal → List FormattedEntry
  | rd :: rds, v :: vs => ⟨rd.id, formatValue d rd v⟩ :: resultsFormattedMetric d rds vs
  | _, _ => []

/-- The JS numeric coercion of a displayed cell value when it is compared to a
band bound inside `getJudgment`. -/
def toNum : JsVal → ℚ
  | .num q => q
  | .str _ => 0

/-- The judgment the evaluation cell of the Results component assigns to the
result at position `i` of a metric: it reads `data.item.value` from the
`resultsFormatted` row and shows the scores only when the declared `scores`
array exists and has more than one entry (otherwise the cell renders a dash). -/
def evalCellJudgment (d : ℕ) (rds : List ResultDescriptor) (vals : List JsVal) (i : ℕ) :
    Option ScoreBand :=
  match (resultsFormattedMetric d rds vals)[i]?, rds[i]? with
  | some entry, some rd =>
      match rd.scores with
      | some bands => if bands.length > 1 then classify (toNum entry.value) bands else none
      | none => none
  | _, _ => none

/-- Constant MAX_FILE_SIZE of the form component: 5 MB. -/
def MAX_FILE_SIZE : ℕ := 5242880

/-- Predicate isFileTooLarge (file) of the form component:
`return (file.size > MAX_FILE_SIZE)`. -/
def isFileTooLarge (size : ℕ) : Bool :=
  decide (size > MAX_FILE_SIZE)

/-! ## The registry configs -/

namespace MetricsV0

/-- Band `r1` of metric `m1` of the config embedded in part_010. -/
def m1r1 : ScoreBand := ⟨"r1", some 0, some 500000, "Suitable", some "good"⟩

/-- Band `r2` of metric `m1`. -/
def m1r2 : ScoreBand := ⟨"r2", some 500001, some 1200000, "Fair", some "normal"⟩

/-- Band `r3` of metric `m1`. -/
def m1r3 : ScoreBand := ⟨"r3", some 1200001, none, "Huge", some "bad"⟩

/-- The scores of result `m1_0`: the band list of Scenario E of the spec. -/
def m1scores : List ScoreBand := [m1r1, m1r2, m1r3]

/-- Metric `m1` (PNG File Size) of the config embedded in part_010. -/
def m1 : MetricDescriptor :=
  ⟨"m1", [⟨"m1_0", 0, "int", some m1scores⟩]⟩

/-- Metric `m2` (JPG File Size) of the config embedded in part_010. -/
def m2 : MetricDescriptor :=
  ⟨"m2", [⟨"m2_0", 0, "int", some
    [⟨"r1", some 0, some 100000, "Suitable", some "good"⟩,
     ⟨"r2", some 100001, some 200000, "Fair", some "normal"⟩,
     ⟨"r3", some 200001, none, "Huge", some "bad"⟩]⟩]⟩

/-- The registry document embedded in part_010 (`metrics:` object). -/
def registry : List MetricDescriptor := [m1, m2]

end MetricsV0

namespace MetricsV1

/-- Metric `cp1` of aim_frontend/src/config/metrics.js. -/
def cp1 : MetricDescriptor :=
  ⟨"cp1", [⟨"cp1_0", 0, "int", some
    [⟨"r1", some 0, some 500000, "Suitable", none⟩,
     ⟨"r2", some 500001, some 1200000, "Fair", none⟩,
     ⟨"r3", some 1200001, none, "Huge", none⟩]⟩]⟩

/-- Metric `cp2`. -/
def cp2 : MetricDescriptor :=
  ⟨"cp2", [⟨"cp2_0", 0, "int", some
    [⟨"r1", some 0, some 5000, "Less colorful", none⟩,
     ⟨"r2", some 5001, some 15000, "Fair", none⟩,
     ⟨"r3", some 15001, none, "Colourful", none⟩]⟩]⟩

/-- The scores of result `cp3_1` (Average Saturation). -/
def cp3s1 : List ScoreBand :=
  [⟨"r1", some 0.00, some 0.10, "Low", none⟩,
   ⟨"r2", some 0.11, some 0.60, "Medium", none⟩,
   ⟨"r3", some 0.61, none, "High", none⟩]

/-- Metric `cp3` (HSV colours). -/
def cp3 : MetricDescriptor :=
  ⟨"cp3",
   [⟨"cp3_0", 0, "float", some [⟨"r1", none, none, "Meaningless", none⟩]⟩,
    ⟨"cp3_1", 1, "float", some cp3s1⟩,
    ⟨"cp3_2", 2, "float", some
      [⟨"r1", some 0.00, some 0.20, "Low", none⟩,
       ⟨"r2", some 0.21, some 0.40, "Medium", none⟩,
       ⟨"r3", some 0.41, none, "High", none⟩]⟩,
    ⟨"cp3_3", 3, "float", some
      [⟨"r1", some 0.00, some 0.40, "Dark", none⟩,
       ⟨"r2", some 0.41, some 0.80, "Medium", none⟩,
       ⟨"r3", some 0.81, some 1.00, "Light", none⟩]⟩,
    ⟨"cp3_4", 4, "float", some
      [⟨"r1", some 0.00, some 0.15, "Low", none⟩,
       ⟨"r2", some 0.16, some 0.35, "Medium", none⟩,
       ⟨"r3", some 0.36, none, "High", none⟩]⟩]⟩

/-- Metric `cp4`. -/
def cp4 : MetricDescriptor :=
  ⟨"cp4",
   [⟨"cp4_0", 0, "int", some
      [⟨"r1", some 0, some 20000, "Good", none⟩,
       ⟨"r2", some 20001, none, "Potential varied", none⟩]⟩,
    ⟨"cp4_1", 1, "int", some [⟨"r1", none, none, "Meaningless", none⟩]⟩,
    ⟨"cp4_2", 2, "int", some [⟨"r1", none, none, "Meaningless", none⟩]⟩,
    ⟨"cp4_3", 3, "int", some [⟨"r1", none, none, "Meaningless", none⟩]⟩]⟩

/-- Metric `cp5`. -/
def cp5 : MetricDescriptor :=
  ⟨"cp5",
   [⟨"cp5_0", 0, "float", some
      [⟨"r1", some 0.00, some 40.00, "Dark", none⟩,
       ⟨"r2", some 40.01, some 75.00, "Medium", none⟩,
       ⟨"r3", some 75.01, some 100.00, "Light", none⟩]⟩,
    ⟨"cp5_1", 1, "float", some
      [⟨"r1", some 0.00, some 15.00, "Low", none⟩,
       ⟨"r2", some 15.01, some 35.00, "Medium", none⟩,
       ⟨"r3", some 35.01, none, "High", none⟩]⟩,
    ⟨"cp5_2", 2, "float", some [⟨"r1", none, none, "Meaningless", none⟩]⟩,
    ⟨"cp5_3", 3, "float", some [⟨"r1", none, none, "Meaningless", none⟩]⟩,
    ⟨"cp5_4", 4, "float", some [⟨"r1", none, none, "Meaningless", none⟩]⟩,
    ⟨"cp5_5", 5, "float", some [⟨"r1", none, none, "Meaningless", none⟩]⟩]⟩

/-- Metric `cp6`. -/
def cp6 : MetricDescriptor :=
  ⟨"cp6",
   [⟨"cp6_0", 0, "float", some [⟨"r1", none, none, "Meaningless", none⟩]⟩,
    ⟨"cp6_1", 1, "float", some [⟨"r1", none, none, "Meaningless", none⟩]⟩,
    ⟨"cp6_2", 2, "float", some [⟨"r1", none, none, "Meaningless", none⟩]⟩,
    ⟨"cp6_3", 3, "float", some [⟨"r1", none, none, "Meaningless", none⟩]⟩,
    ⟨"cp6_4", 4, "float", some [⟨"r1", none, none, "Meaningless", none⟩]⟩,
    ⟨"cp6_5", 5, "float", some [⟨"r1", none, none, "Meaningless", none⟩]⟩,
    ⟨"cp6_6", 6, "float", some
      [⟨"r1", some 0.00, some 50.00, "Less colorful", none⟩,
       ⟨"r2", some 50.01, some 100.00, "Fair", none⟩,
       ⟨"r3", some 100.01, none, "Colorful", none⟩]⟩]⟩

/-- Metric `cp7`. -/
def cp7 : MetricDescriptor :=
  ⟨"cp7", [⟨"cp7_0", 0, "int", some
    [⟨"r1", some 0, some 4000, "Less colorful", none⟩,
     ⟨"r2", some 4001, some 8000, "Fair", none⟩,
     ⟨"r3", some 8001, none, "Colorful", none⟩]⟩]⟩

/-- Metric `cp8`. -/
def cp8 : MetricDescriptor :=
  ⟨"cp8",
   [⟨"cp8_0", 0, "int", some
      [⟨"r1", some 0, some 500, "Less colorful", none⟩,
       ⟨"r2", some 501, some 1000, "Fair", none⟩,
       ⟨"r3", some 1001, none, "Colorful", none⟩]⟩,
    ⟨"cp8_1", 1, "int", some [⟨"r1", none, none, "Meaningless", none⟩]⟩]⟩

/-- Metric `cp9`. -/
def cp9 : MetricDescriptor :=
  ⟨"cp9", [⟨"cp9_0", 0, "float", some
    [⟨"r1", some 0.00, some 60.00, "Good", none⟩,
     ⟨"r2", some 60.01, some 90.00, "Acceptable", none⟩,
     ⟨"r3", some 90.01, none, "Potential varied", none⟩]⟩]⟩

/-- Metric `cp10`. -/
def cp10 : MetricDescriptor :=
  ⟨"cp10", [⟨"cp10_0", 0, "float", some
    [⟨"r1", some 0.00, some 0.54, "Low", none⟩,
     ⟨"r2", some 0.55, some 1.00, "Good", none⟩]⟩]⟩

/-- Metric `pf1`. -/
def pf1 : MetricDescriptor :=
  ⟨"pf1", [⟨"pf1_0", 0, "float", some
    [⟨"r1", some 0.00, some 0.12, "Good", none⟩,
     ⟨"r2", some 0.13, some 0.22, "Fair", none⟩,
     ⟨"r3", some 0.23, none, "Poor", none⟩]⟩]⟩

/-- Metric `pf2`. -/
def pf2 : MetricDescriptor :=
  ⟨"pf2", [⟨"pf2_0", 0, "float", some
    [⟨"r1", some 0.00, some 0.25, "Good", none⟩,
     ⟨"r2", some 0.26, some 0.50, "Fair", none⟩,
     ⟨"r3", some 0.51, none, "Poor", none⟩]⟩]⟩

/-- Metric `pf3`. -/
def pf3 : MetricDescriptor :=
  ⟨"pf3", [⟨"pf3_0", 0, "int", some
    [⟨"r1", some 0, some 100000, "Suitable", none⟩,
     ⟨"r2", some 100001, some 200000, "Fair", none⟩,
     ⟨"r3", some 200001, none, "Huge", none⟩]⟩]⟩

/-- Metric `pf4`. -/
def pf4 : MetricDescriptor :=
  ⟨"pf4", [⟨"pf4_0", 0, "float", some [⟨"r1", none, none, "TODO", none⟩]⟩]⟩

/-- Metric `pf5`. -/
def pf5 : MetricDescriptor :=
  ⟨"pf5", [⟨"pf5_0", 0, "float", some
    [⟨"r1", some 0.00, some 1.00, "Good", none⟩,
     ⟨"r2", some 1.01, none, "Poor", none⟩]⟩]⟩

/-- Metric `pf6`. -/
def pf6 : MetricDescriptor :=
  ⟨"pf6",
   [⟨"pf6_0", 0, "float", some
      [⟨"r1", some 0.00, some 0.65, "Potential unbalanced", none⟩,
       ⟨"r2", some 0.66, some 1.00, "Balanced", none⟩]⟩,
    ⟨"pf6_1", 1, "float", some
      [⟨"r1", some 0.00, some 0.50, "Poor", none⟩,
       ⟨"r2", some 0.51, some 1.00, "Acceptable", none⟩]⟩,
    ⟨"pf6_2", 2, "float", some
      [⟨"r1", some 0.00, some 0.65, "Not centralized", none⟩,
       ⟨"r2", some 0.66, some 1.00, "Centralized", none⟩]⟩,
    ⟨"pf6_3", 3, "int", some
      [⟨"r1", some 0, some 1500, "Good", none⟩,
       ⟨"r2", some 1501, some 3200, "Fair", none⟩,
       ⟨"r3", some 3201, none, "Poor", none⟩]⟩]⟩

/-- Metric `pf7`. -/
def pf7 : MetricDescriptor :=
  ⟨"pf7", [⟨"pf7_0", 0, "float", some
    [⟨"r1", some 0.00, some 0.30, "Low", none⟩,
     ⟨"r2", some 0.31, some 0.80, "Good", none⟩,
     ⟨"r3", some 0.81, some 1.00, "High", none⟩]⟩]⟩

/-- Metric `pf8`. -/
def pf8 : MetricDescriptor :=
  ⟨"pf8", [⟨"pf8_0", 0, "int", some
    [⟨"r1", some 4, some 100, "Low", none⟩,
     ⟨"r2", some 101, some 220, "Medium", none⟩,
     ⟨"r3", some 221, none, "High", none⟩]⟩]⟩

/-- Metric `vg1` (b64 visualization, no scores). -/
def vg1 : MetricDescriptor := ⟨"vg1", [⟨"vg1_0", 0, "b64", none⟩]⟩

/-- Metric `vg2` (b64 visualization, no scores). -/
def vg2 : MetricDescriptor := ⟨"vg2", [⟨"vg2_0", 0, "b64", none⟩]⟩

/-- Metric `ac1` (b64 visualization, no scores). -/
def ac1 : MetricDescriptor :=
  ⟨"ac1", [⟨"ac1_0", 0, "b64", none⟩, ⟨"ac1_1", 1, "b64", none⟩, ⟨"ac1_2", 2, "b64", none⟩]⟩

/-- The registry document of aim_frontend/src/config/metrics.js, in declaration
order of its `metrics` object. -/
def registry : List MetricDescriptor :=
  [cp1, cp2, cp3, cp4, cp5, cp6, cp7, cp8, cp9, cp10,
   pf1, pf2, pf3, pf4, pf5, pf6, pf7, pf8, vg1, vg2, ac1]

end MetricsV1

namespace MetricsV2

/-- The registry document of part_013: same metric ids, result ids, indices and
types as aim_frontend/src/config/metrics.js, but no `results[].scores` key is
declared anywhere. -/
def registry : List MetricDescriptor :=
  [⟨"cp1", [⟨"cp1_0", 0, "int", none⟩]⟩,
   ⟨"cp2", [⟨"cp2_0", 0, "int", none⟩]⟩,
   ⟨"cp3", [⟨"cp3_0", 0, "float", none⟩, ⟨"cp3_1", 1, "float", none⟩,
            ⟨"cp3_2", 2, "float", none⟩, ⟨"cp3_3", 3, "float", none⟩,
            ⟨"cp3_4", 4, "float", none⟩]⟩,
   ⟨"cp4", [⟨"cp4_0", 0, "int", none⟩, ⟨"cp4_1", 1, "int", none⟩,
            ⟨"cp4_2", 2, "int", none⟩, ⟨"cp4_3", 3, "int", none⟩]⟩,
   ⟨"cp5", [⟨"cp5_0", 0, "float", none⟩, ⟨"cp5_1", 1, "float", none⟩,
            ⟨"cp5_2", 2, "float", none⟩, ⟨"cp5_3", 3, "float", none⟩,
            ⟨"cp5_4", 4, "float", none⟩, ⟨"cp5_5", 5, "float", none⟩]⟩,
   ⟨"cp6", [⟨"cp6_0", 0, "float", none⟩, ⟨"cp6_1", 1, "float", none⟩,
            ⟨"cp6_2", 2, "float", none⟩, ⟨"cp6_3", 3, "float", none⟩,
            ⟨"cp6_4", 4, "float", none⟩, ⟨"cp6_5", 5, "float", none⟩,
            ⟨"cp6_6", 6, "float", none⟩]⟩,
   ⟨"cp7", [⟨"cp7_0", 0, "int", none⟩]⟩,
   ⟨"cp8", [⟨"cp8_0", 0, "int", none⟩, ⟨"cp8_1", 1, "int", none⟩]⟩,
   ⟨"cp9", [⟨"cp9_0", 0, "float", none⟩]⟩,
   ⟨"cp10", [⟨"cp10_0", 0, "float", none⟩]⟩,
   ⟨"pf1", [⟨"pf1_0", 0, "float", none⟩]⟩,
   ⟨"pf2", [⟨"pf2_0", 0, "float", none⟩]⟩,
   ⟨"pf3", [⟨"pf3_0", 0, "int", none⟩]⟩,
   ⟨"pf4", [⟨"pf4_0", 0, "float", none⟩]⟩,
   ⟨"pf5", [⟨"pf5_0", 0, "float", none⟩]⟩,
   ⟨"pf6", [⟨"pf6_0", 0, "float", none⟩, ⟨"pf6_1", 1, "float", none⟩,
            ⟨"pf6_2", 2, "float", none⟩, ⟨"pf6_3", 3, "int", none⟩]⟩,
   ⟨"pf7", [⟨"pf7_0", 0, "float", none⟩]⟩,
   ⟨"pf8", [⟨"pf8_0", 0, "int", none⟩]⟩,
   ⟨"vg1", [⟨"vg1_0", 0, "b64", none⟩]⟩,
   ⟨"vg2", [⟨"vg2_0", 0, "b64", none⟩]⟩,
   ⟨"ac1", [⟨"ac1_0", 0, "b64", none⟩, ⟨"ac1_1", 1, "b64", none⟩,
            ⟨"ac1_2", 2, "b64", none⟩]⟩]

end MetricsV2

/-! ## The Vuex session store (part_010)

The maps of the store (`state.results`, `state.fetching`) are JS objects, modelled
as association lists whose keys are unique (a JS object cannot hold a
duplicate key; where a property needs this, it carries a `Nodup` hypothesis
on the key list). -/

/-- The `state.display` flag object, in declaration order. -/
structure DisplayFlags where
  input : Bool
  metrics : Bool
  progressBar : Bool
  summary : Bool
  preview : Bool
  results : Bool
deriving DecidableEq

/-- The store state produced by `initialState()`.  The second store copy in
part_010 adds a `reconnectCount` field that no mutation modelled here reads;
it is omitted. -/
structure StoreState where
  results : List (String × List JsVal)
  preview : String
  fetching : List (String × Bool)
  fetchingCount : ℕ
  fetchedCount : ℕ
  validationError : Bool
  generalError : Bool
  display : DisplayFlags
deriving DecidableEq

/-- The function initialState(). -/
def initialState : StoreState :=
  { results := []
    preview := ""
    fetching := []
    fetchingCount := 0
    fetchedCount := 0
    validationError := false
    generalError := false
    display :=
      { input := true, metrics := false, progressBar := false,
        summary := false, preview := false, results := false } }

/-- JS property read `obj[k]` on an association-list object. -/
def lookupKey {α : Type} : List (String × α) → String → Option α
  | [], _ => none
  | p :: ps, k => if p.1 = k then some p.2 else lookupKey ps k

/-- Lodash `_.omit(obj, k)`: drops the binding of key `k`. -/
def omitKey {α : Type} (l : List (String × α)) (k : String) : List (String × α) :=
  l.filter (fun p => !(decide (p.1 = k)))

/-- Lodash `_.size(_.pickBy(metrics, (value) => value))`: the number of keys bound to
a truthy value. -/
def countTruthy (l : List (String × Bool)) : ℕ :=
  (l.filter (fun p => p.2)).length

/-- Lodash `_.merge` of two JS arrays of scalar values: index-wise overwrite, so a
trailing segment of a longer old array survives the merge. -/
def mergeArray (oldVals newVals : List JsVal) : List JsVal :=
  newVals ++ oldVals.drop newVals.length

/-- The lodash merge performed by the pushResult mutation on `state.results`
with the single-key object carrying the delivered values: an existing binding
of `metric` is merged index-wise (`mergeArray`), a fresh `metric` key is
appended at the end. -/
def mergeResult : List (String × List JsVal) → String → List JsVal → List (String × List JsVal)
  | [], m, vals => [(m, vals)]
  | p :: ps, m, vals =>
      if p.1 = m then (p.1, mergeArray p.2 vals) :: ps
      else p :: mergeResult ps m vals

/-- The `pushResult` mutation (named `pushResults` in the second store copy,
with an identical body): sets `display.results`, merges the delivered values
into `state.results`, and removes the metric from `state.fetching`. -/
def pushResult (s : StoreState) (metric : String) (vals : List JsVal) : StoreState :=
  { s with
    display := { s.display with results := true }
    results := mergeResult s.results metric vals
    fetching := omitKey s.fetching metric }

/-- The `increaseFetchedCount` mutation: `state.fetchedCount++`. -/
def increaseFetchedCount (s : StoreState) : StoreState :=
  { s with fetchedCount := s.fetchedCount + 1 }

/-- The `updateProgressBarVisibility` mutation: when
`state.fetchedCount === state.fetchingCount` it replaces `state.display`
(keeping `input` and `preview`), otherwise it does nothing. -/
def updateProgressBarVisibility (s : StoreState) : StoreState :=
  if s.fetchedCount = s.fetchingCount then
    { s with
      display :=
        { input := s.display.input, metrics := false, summary := true,
          results := true, preview := s.display.preview, progressBar := false } }
  else s

/-- The `pushPreview` mutation: sets `display.preview` and stores the payload. -/
def pushPreview (s : StoreState) (payload : String) : StoreState :=
  { s with display := { s.display with preview := true }, preview := payload }

/-- The `resetState` mutation: every state field is set back to
`initialState()`. -/
def resetState (_ : StoreState) : StoreState :=
  initialState

/-- The `pushValidationError` mutation: commits `resetState`, then sets
`state.validationError = true`. -/
def pushValidationError (s : StoreState) : StoreState :=
  { resetState s with validationError := true }

/-- The `pushGeneralError` mutation: commits `resetState`, then sets
`state.display.input = false` and `state.generalError = true`. -/
def pushGeneralError (s : StoreState) : StoreState :=
  { resetState s with
    display := { initialState.display with input := false }
    generalError := true }

/-- The `fetchResults` mutation: stores the submitted selection map as
`state.fetching`, counts its truthy entries into `state.fetchingCount`,
resets `state.fetchedCount` to 0 and replaces `state.display`. -/
def fetchResults (s : StoreState) (metrics : List (String × Bool)) : StoreState :=
  { s with
    fetching := metrics
    fetchingCount := countTruthy metrics
    fetchedCount := 0
    display :=
      { input := false, metrics := false, progressBar := true,
        summary := true, preview := false, results := false } }

/-- The `pushResult` action: commits `pushResult`, `increaseFetchedCount`,
`updateProgressBarVisibility` and `updateSummary` in this order
(`updateSummary` only scrolls and logs; it does not change the state). -/
def pushResultAction (s : StoreState) (metric : String) (vals : List JsVal) : StoreState :=
  updateProgressBarVisibility (increaseFetchedCount (pushResult s metric vals))

/-- The `pushPreview` action: commits `pushPreview` then
`updateProgressBarVisibility`. -/
def pushPreviewAction (s : StoreState) (payload : String) : StoreState :=
  updateProgressBarVisibility (pushPreview s payload)

/-- The store-level events a session can receive. -/
inductive Event where
  | fetchResults (sel : List (String × Bool))
  | pushResult (metric : String) (vals : List JsVal)
  | pushPreview (payload : String)
  | pushValidationError
  | pushGeneralError
  | resetState
deriving DecidableEq

/-- The state transition of one event. -/
def step (s : StoreState) : Event → StoreState
  | .fetchResults sel => fetchResults s sel
  | .pushResult m vals => pushResultAction s m vals
  | .pushPreview p => pushPreviewAction s p
  | .pushValidationError => pushValidationError s
  | .pushGeneralError => pushGeneralError s
  | .resetState => resetState s

/-- Protocol validity of an event in a state: a selection map is a JS object
(distinct keys), and the backend delivers a result only for a metric that was
requested and is still pending — the result websocket messages of a session
answer exactly the truthy entries of the submitted selection. -/
def eventValid (s : StoreState) : Event → Prop
  | .fetchResults sel => (sel.map Prod.fst).Nodup
  | .pushResult m _ => lookupKey s.fetching m = some true
  | _ => True

/-- A protocol-valid run of events from a state. -/
inductive ValidRun : StoreState → List Event → Prop
  | nil (s : StoreState) : ValidRun s []
  | cons (s : StoreState) (e : Event) (es : List Event) :
      eventValid s e → ValidRun (step s e) es → ValidRun s (e :: es)

/-- Folding a list of events over a state. -/
def runFrom (s : StoreState) : List Event → StoreState
  | [] => s
  | e :: es => runFrom (step s e) es

/-- A state is reachable when some protocol-valid run from `initialState()`
produces it. -/
def Reachable (s : StoreState) : Prop :=
  ∃ es, ValidRun initialState es ∧ runFrom initialState es = s

/-- The session bookkeeping invariant: the fetching map has distinct keys and
the completed count plus the still-pending truthy entries equals the
submitted count. -/
def sessionInv (s : StoreState) : Prop :=
  (s.fetching.map Prod.fst).Nodup ∧
    s.fetchedCount + countTruthy s.fetching = s.fetchingCount

/-- Events that belong to the own lifetime of one submitted request: deliveries of
task outcomes and of the preview image. -/
def sessionEvent : Event → Prop
  | .pushResult _ _ => True
  | .pushPreview _ => True
  | _ => False

/-- How many steps of a run cross from an incomplete state
(`fetchedCount ≠ fetchingCount`) into a complete one
(`fetchedCount = fetchingCount`): the session-complete transition counter. -/
def fires (s : StoreState) : List Event → ℕ
  | [] => 0
  | e :: es =>
      (if s.fetchedCount ≠ s.fetchingCount ∧
          (step s e).fetchedCount = (step s e).fetchingCount then 1 else 0) +
        fires (step s e) es

/-! ## Basic facts about the classifier -/

/-- The boolean band test of the code agrees with the propositional
containment `bandMatches`. -/
theorem getJudgment_eq_true_iff (b : ScoreBand) (v : ℚ) :
    getJudgment b v = true ↔ bandMatches b v := by
  obtain ⟨i, mn, mx, d, j⟩ := b
  cases mn <;> cases mx <;>
    simp [getJudgment, bandMatches]

/-- Negated form of `getJudgment_eq_true_iff`. -/
theorem getJudgment_eq_false_iff (b : ScoreBand) (v : ℚ) :
    getJudgment b v = false ↔ ¬ bandMatches b v := by
  rw [← getJudgment_eq_true_iff, Bool.not_eq_true]

/-- The classifier returns exactly the first band of the declared order whose
containment test succeeds. -/
theorem classify_eq_some_iff (v : ℚ) (bands : List ScoreBand) (b : ScoreBand) :
    classify v bands = some b ↔
      ∃ pre post, bands = pre ++ b :: post ∧ bandMatches b v ∧
        ∀ b2 ∈ pre, ¬ bandMatches b2 v := by
  rw [classify, List.find?_eq_some]
  simp only [Bool.not_eq_true', getJudgment_eq_true_iff, getJudgment_eq_false_iff]
  constructor
  · rintro ⟨hb, pre, post, rfl, hall⟩
    exact ⟨pre, post, rfl, hb, hall⟩
  · rintro ⟨pre, post, rfl, hb, hall⟩
    exact ⟨hb, pre, post, rfl, hall⟩

/-- Scenario E, evaluated on the embedded `m1` bands. -/
theorem classify_scenarioE :
    classify 500000 MetricsV0.m1scores = some MetricsV0.m1r1 := by
  simp only [classify, MetricsV0.m1scores, List.find?_cons]
  have h1 : getJudgment MetricsV0.m1r1 500000 = true := by
    simp [getJudgment, MetricsV0.m1r1]
  rw [h1]

/-! ## C1, C3, C9: classification claims -/

/-- C1 (amended): Classification returns the judgment of the first band in
declared order whose range contains the value, where containment is the
inclusive rule `min ≤ value` and (`value ≤ max` or `max` unbounded) with a
*numeric* min: a band whose min is unbounded (null) matches no value (its max
side being unbounded still always matches).  In particular Scenario E:
`classify(500000, m1scores)` is the Suitable band. -/
theorem classify_first_match (v : ℚ) (bands : List ScoreBand) (b : ScoreBand) :
    (classify v bands = some b ↔
      ∃ pre post, bands = pre ++ b :: post ∧
        ((∃ mn, b.rangeMin = some mn ∧ mn ≤ v) ∧
          (b.rangeMax = none ∨ ∃ mx, b.rangeMax = some mx ∧ v ≤ mx)) ∧
        ∀ b2 ∈ pre, ¬ bandMatches b2 v) ∧
    classify 500000 MetricsV0.m1scores = some MetricsV0.m1r1 :=
  ⟨classify_eq_some_iff v bands b, classify_scenarioE⟩

/-- C1 counterexample: The containment rule of the claim says an unbounded end
always satisfies its side, so the value 5 belongs to a `range: [null, null]`
band (the shape declared for cp3_0, cp4_1, ... in
aim_frontend/src/config/metrics.js) and the spec-worded classifier returns
it; the classifier of the code returns no judgment for it, because `getJudgment`
returns false whenever `score.range[0] === null`. -/
theorem classify_unbounded_min_cex :
    specClassify 5 [⟨"r1", none, none, "Meaningless", none⟩] =
      some ⟨"r1", none, none, "Meaningless", none⟩ ∧
    classify 5 [⟨"r1", none, none, "Meaningless", none⟩] = none ∧
    classify 5 [⟨"r1", none, none, "Meaningless", none⟩] ≠
      specClassify 5 [⟨"r1", none, none, "Meaningless", none⟩] := by
  refine ⟨rfl, rfl, ?_⟩
  intro h
  exact Option.noConfusion (h.symm.trans rfl)

/-- Witness for C1: Scenario E extracted from the theorem. -/
theorem classify_first_match_witness :
    classify 500000 MetricsV0.m1scores = some MetricsV0.m1r1 :=
  (classify_first_match 0 [] MetricsV0.m1r1).2

/-- C3 (amended): A band with an unbounded (null) max contains every value
`v` with `min ≤ v` (for its numeric min); but a band with an unbounded (null)
min contains *no* value at all — `getJudgment` returns false for it. -/
theorem getJudgment_unbounded_sides (b : ScoreBand) (v mn : ℚ) :
    (b.rangeMin = some mn → mn ≤ v → b.rangeMax = none → getJudgment b v = true) ∧
    (b.rangeMin = none → getJudgment b v = false) := by
  obtain ⟨i, rmin, rmax, d, j⟩ := b
  constructor
  · rintro rfl h rfl
    simp [getJudgment, h]
  · rintro rfl
    rfl

/-- C3 counterexample: The value 5 satisfies `5 ≤ 10 = max`, so under the
claim a band with unbounded min and max 10 contains it; the band test of the code
rejects it. -/
theorem getJudgment_null_min_cex :
    (5 : ℚ) ≤ 10 ∧ getJudgment ⟨"b1", none, some 10, "InRange", none⟩ 5 = false :=
  ⟨by norm_num, rfl⟩

/-- Witness for C3 on the unbounded-max band `r3` of `m1`. -/
theorem getJudgment_unbounded_sides_witness :
    getJudgment ⟨"r3", some 1200001, none, "Huge", some "bad"⟩ 2000000 = true :=
  (getJudgment_unbounded_sides ⟨"r3", some 1200001, none, "Huge", some "bad"⟩
    2000000 1200001).1 rfl (by norm_num) rfl

/-- C9: The classifier is a pure function of its two inputs: two
invocations on identical inputs return the identical judgment. -/
theorem classify_deterministic (v1 v2 : ℚ) (bands1 bands2 : List ScoreBand)
    (hv : v1 = v2) (hb : bands1 = bands2) :
    classify v1 bands1 = classify v2 bands2 := by
  rw [hv, hb]

/-- Witness for C9 at the value of Scenario A. -/
theorem classify_deterministic_witness :
    classify 300000 MetricsV0.m1scores = classify 300000 MetricsV0.m1scores :=
  classify_deterministic 300000 300000 MetricsV0.m1scores MetricsV0.m1scores rfl rfl

/-! ## C10: upload size limit -/

/-- C10: The request-side size validation rejects a file exactly when its
size exceeds 5242880 bytes; a file of exactly 5242880 bytes passes. -/
theorem isFileTooLarge_iff :
    (∀ size : ℕ, isFileTooLarge size = true ↔ 5242880 < size) ∧
    isFileTooLarge 5242880 = false := by
  constructor
  · intro size
    simp [isFileTooLarge, MAX_FILE_SIZE]
  · rfl

/-- Witness for C10 just above the limit. -/
theorem isFileTooLarge_iff_witness : isFileTooLarge 5242881 = true :=
  (isFileTooLarge_iff.1 5242881).mpr (by norm_num)

/-! ## C5: validation errors reset the whole session -/

/-- C5: Delivering a ValidationError resets the store to the
pre-submission initial state — empty results map, empty fetching map, both
progress counters 0, initial display — with only the validationError flag
set. -/
theorem pushValidationError_resets (s : StoreState) :
    pushValidationError s = { initialState with validationError := true } ∧
    (pushValidationError s).results = [] ∧
    (pushValidationError s).fetching = [] ∧
    (pushValidationError s).fetchedCount = 0 ∧
    (pushValidationError s).fetchingCount = 0 ∧
    (pushValidationError s).validationError = true ∧
    (pushValidationError s).generalError = false :=
  ⟨rfl, rfl, rfl, rfl, rfl, rfl, rfl⟩

/-! ## C6: submitted count of a new request -/

/-- C6: Submitting a selection map sets the submitted count to the number
of distinct metric ids selected true (the selection is a JS object, so its
keys are distinct and `dedup` is the identity on them), and resets the
completed count to 0. -/
theorem fetchResults_dedup_counts (s : StoreState) (sel : List (String × Bool))
    (h : (sel.map Prod.fst).Nodup) :
    (fetchResults s sel).fetchingCount =
      (((sel.filter (fun p => p.2)).map Prod.fst).dedup).length ∧
    (fetchResults s sel).fetchedCount = 0 := by
  refine ⟨?_, rfl⟩
  have hsub : ((sel.filter (fun p => p.2)).map Prod.fst).Sublist (sel.map Prod.fst) :=
    (List.filter_sublist sel).map Prod.fst
  rw [List.Nodup.dedup (h.sublist hsub), List.length_map]
  rfl

/-- Witness for C6: three selected ids, one of them false. -/
theorem fetchResults_dedup_counts_witness :
    (fetchResults initialState [("cp1", true), ("cp2", false), ("cp3", true)]).fetchingCount =
      ((((([("cp1", true), ("cp2", false), ("cp3", true)] : List (String × Bool))).filter
        (fun p => p.2)).map Prod.fst).dedup).length ∧
    (fetchResults initialState [("cp1", true), ("cp2", false), ("cp3", true)]).fetchedCount = 0 :=
  fetchResults_dedup_counts initialState [("cp1", true), ("cp2", false), ("cp3", true)]
    (by decide)

/-! ## C7: effect and frame of one delivered result -/

/-- Merging a delivered value list for `m` makes the binding of `m` the delivered
list, provided no longer prior binding exists (the lodash index-wise array
merge keeps the tail of a longer prior array). -/
theorem lookupKey_mergeResult_self (rs : List (String × List JsVal)) (m : String)
    (vals : List JsVal)
    (h : ∀ prior, lookupKey rs m = some prior → prior.length ≤ vals.length) :
    lookupKey (mergeResult rs m vals) m = some vals := by
  induction rs with
  | nil => simp [mergeResult, lookupKey]
  | cons p ps ih =>
      by_cases hp : p.1 = m
      · have hlen := h p.2 (by rw [lookupKey, if_pos hp])
        rw [mergeResult, if_pos hp, lookupKey, if_pos hp, mergeArray,
          List.drop_eq_nil_of_le hlen, List.append_nil]
      · rw [mergeResult, if_neg hp, lookupKey, if_neg hp]
        exact ih (fun prior hpr => h prior (by rw [lookupKey, if_neg hp]; exact hpr))

/-- Merging a delivered value list for `m` leaves the binding of every other key
unchanged. -/
theorem lookupKey_mergeResult_other (rs : List (String × List JsVal)) (m m2 : String)
    (vals : List JsVal) (h : m2 ≠ m) :
    lookupKey (mergeResult rs m vals) m2 = lookupKey rs m2 := by
  induction rs with
  | nil =>
      have hne : ¬ (m = m2) := fun hc => h hc.symm
      simp [mergeResult, lookupKey, hne]
  | cons p ps ih =>
      by_cases hp : p.1 = m
      · have hp2 : ¬ p.1 = m2 := fun hc => h (hc.symm.trans hp)
        rw [mergeResult, if_pos hp, lookupKey, if_neg hp2, lookupKey, if_neg hp2]
      · by_cases hq : p.1 = m2
        · rw [mergeResult, if_neg hp, lookupKey, if_pos hq, lookupKey, if_pos hq]
        · rw [mergeResult, if_neg hp, lookupKey, if_neg hq, lookupKey, if_neg hq]
          exact ih

/-- After `_.omit(fetching, k)`, the key `k` is gone. -/
theorem lookupKey_omitKey_self {α : Type} (l : List (String × α)) (k : String) :
    lookupKey (omitKey l k) k = none := by
  induction l with
  | nil => rfl
  | cons p ps ih =>
      by_cases hp : p.1 = k
      · simpa [omitKey, List.filter_cons, hp] using ih
      · simpa [omitKey, List.filter_cons, hp, lookupKey] using ih

/-- The `pushResult` action changes `state.results` exactly by the merge. -/
theorem pushResultAction_results (s : StoreState) (m : String) (vals : List JsVal) :
    (pushResultAction s m vals).results = mergeResult s.results m vals := by
  unfold pushResultAction updateProgressBarVisibility increaseFetchedCount pushResult
  split <;> rfl

/-- The `pushResult` action changes `state.fetching` exactly by the omit. -/
theorem pushResultAction_fetching (s : StoreState) (m : String) (vals : List JsVal) :
    (pushResultAction s m vals).fetching = omitKey s.fetching m := by
  unfold pushResultAction updateProgressBarVisibility increaseFetchedCount pushResult
  split <;> rfl

/-- C7 (amended): Delivering a result outcome for metric `m` stores the
delivered value list as `results[m]` — provided `m` has no prior entry longer
than the delivered list (in particular on its first delivery; the lodash
merge keeps the trailing elements of a longer prior array) — removes `m`
from the fetching map, and leaves the results entry of every other metric
unchanged. -/
theorem pushResult_updates_frame (s : StoreState) (m : String) (vals : List JsVal)
    (h : ∀ prior, lookupKey s.results m = some prior → prior.length ≤ vals.length) :
    lookupKey (pushResultAction s m vals).results m = some vals ∧
    lookupKey (pushResultAction s m vals).fetching m = none ∧
    ∀ m2, m2 ≠ m →
      lookupKey (pushResultAction s m vals).results m2 = lookupKey s.results m2 := by
  refine ⟨?_, ?_, ?_⟩
  · rw [pushResultAction_results]
    exact lookupKey_mergeResult_self s.results m vals h
  · rw [pushResultAction_fetching]
    exact lookupKey_omitKey_self s.fetching m
  · intro m2 hm2
    rw [pushResultAction_results]
    exact lookupKey_mergeResult_other s.results m m2 vals hm2

/-- C7 counterexample: A reachable run in which `m1` is answered with a
two-value list, re-submitted, and answered again with a one-value list: the
lodash merge keeps the stale second element, so `results.m1` is *not* the
delivered `[9]`. -/
theorem pushResult_merge_stale_cex :
    ValidRun initialState
      [Event.fetchResults [("m1", true)],
       Event.pushResult "m1" [JsVal.num 1, JsVal.num 2],
       Event.fetchResults [("m1", true)],
       Event.pushResult "m1" [JsVal.num 9]] ∧
    lookupKey (runFrom initialState
      [Event.fetchResults [("m1", true)],
       Event.pushResult "m1" [JsVal.num 1, JsVal.num 2],
       Event.fetchResults [("m1", true)],
       Event.pushResult "m1" [JsVal.num 9]]).results "m1" =
      some [JsVal.num 9, JsVal.num 2] ∧
    some [JsVal.num 9, JsVal.num 2] ≠ some [JsVal.num 9] := by
  refine ⟨?_, ?_, by simp⟩
  · refine ValidRun.cons _ _ _
      (show (([("m1", true)] : List (String × Bool)).map Prod.fst).Nodup by decide) ?_
    refine ValidRun.cons _ _ _ ?_ ?_
    · show lookupKey [("m1", true)] "m1" = some true
      rfl
    refine ValidRun.cons _ _ _
      (show (([("m1", true)] : List (String × Bool)).map Prod.fst).Nodup by decide) ?_
    refine ValidRun.cons _ _ _ ?_ (ValidRun.nil _)
    · show lookupKey [("m1", true)] "m1" = some true
      rfl
  · rfl

/-- Witness for C7: first delivery of a metric stores exactly the delivered
values, drops it from fetching, and leaves the entry of the other metric alone. -/
theorem pushResult_updates_frame_witness :
    lookupKey (pushResultAction
      { initialState with
        results := [("m2", [JsVal.num 7])]
        fetching := [("m1", true)]
        fetchingCount := 1 } "m1" [JsVal.num 3]).results "m1" =
      some [JsVal.num 3] ∧
    lookupKey (pushResultAction
      { initialState with
        results := [("m2", [JsVal.num 7])]
        fetching := [("m1", true)]
        fetchingCount := 1 } "m1" [JsVal.num 3]).fetching "m1" =
      none ∧
    lookupKey (pushResultAction
      { initialState with
        results := [("m2", [JsVal.num 7])]
        fetching := [("m1", true)]
        fetchingCount := 1 } "m1" [JsVal.num 3]).results "m2" =
      lookupKey [("m2", [JsVal.num 7])] "m2" := by
  have h := pushResult_updates_frame
    { initialState with
      results := [("m2", [JsVal.num 7])]
      fetching := [("m1", true)]
      fetchingCount := 1 } "m1" [JsVal.num 3]
    (by intro prior hp; rw [lookupKey, if_neg (by decide)] at hp; exact Option.noConfusion hp)
  exact ⟨h.1, h.2.1, h.2.2 "m2" (by decide)⟩

/-! ## C2: counter invariant and unique session completion -/

/-- Unfolding the truthy count over a cons. -/
theorem countTruthy_cons (p : String × Bool) (l : List (String × Bool)) :
    countTruthy (p :: l) = (if p.2 = true then 1 else 0) + countTruthy l := by
  by_cases h : p.2 = true <;>
    simp [countTruthy, List.filter_cons, h, Nat.add_comm]

/-- Omitting an absent key is the identity. -/
theorem omitKey_eq_self {α : Type} (l : List (String × α)) (k : String)
    (h : k ∉ l.map Prod.fst) : omitKey l k = l := by
  induction l with
  | nil => rfl
  | cons p ps ih =>
      simp only [List.map_cons, List.mem_cons, not_or] at h
      have h1 : ¬ p.1 = k := fun hc => h.1 hc.symm
      simp only [omitKey] at ih ⊢
      simp [List.filter_cons, h1, ih h.2]

/-- Removing the (unique) truthy binding of `k` decreases the truthy count by
exactly one. -/
theorem countTruthy_omitKey (l : List (String × Bool)) (k : String)
    (hn : (l.map Prod.fst).Nodup) (hl : lookupKey l k = some true) :
    countTruthy l = countTruthy (omitKey l k) + 1 := by
  induction l with
  | nil => simp [lookupKey] at hl
  | cons p ps ih =>
      simp only [List.map_cons, List.nodup_cons] at hn
      by_cases hp : p.1 = k
      · rw [lookupKey, if_pos hp] at hl
        injection hl with hval
        have hmem : k ∉ ps.map Prod.fst := by rw [← hp]; exact hn.1
        have homit : omitKey (p :: ps) k = omitKey ps k := by
          simp [omitKey, List.filter_cons, hp]
        rw [countTruthy_cons, hval, homit, omitKey_eq_self ps k hmem, if_pos rfl]
        omega
      · rw [lookupKey, if_neg hp] at hl
        have homit : omitKey (p :: ps) k = p :: omitKey ps k := by
          simp [omitKey, List.filter_cons, hp]
        rw [countTruthy_cons, homit, countTruthy_cons, ih hn.2 hl]
        omega

/-- A key looked up with value true contributes to the truthy count. -/
theorem countTruthy_pos_of_lookup (l : List (String × Bool)) (k : String)
    (h : lookupKey l k = some true) : 1 ≤ countTruthy l := by
  induction l with
  | nil => simp [lookupKey] at h
  | cons p ps ih =>
      rw [countTruthy_cons]
      by_cases hp : p.1 = k
      · rw [lookupKey, if_pos hp] at h
        injection h with hv
        rw [hv, if_pos rfl]
        omega
      · rw [lookupKey, if_neg hp] at h
        have := ih h
        omega

/-- Omitting a key preserves distinctness of the keys. -/
theorem omitKey_keys_nodup {α : Type} (l : List (String × α)) (k : String)
    (h : (l.map Prod.fst).Nodup) : ((omitKey l k).map Prod.fst).Nodup :=
  h.sublist ((List.filter_sublist l).map Prod.fst)

/-- The mutation updateProgressBarVisibility only touches the display flags. -/
theorem updateProgressBarVisibility_skel (s : StoreState) :
    (updateProgressBarVisibility s).results = s.results ∧
    (updateProgressBarVisibility s).fetching = s.fetching ∧
    (updateProgressBarVisibility s).fetchedCount = s.fetchedCount ∧
    (updateProgressBarVisibility s).fetchingCount = s.fetchingCount := by
  unfold updateProgressBarVisibility
  split <;> exact ⟨rfl, rfl, rfl, rfl⟩

/-- Counter and fetching effect of a delivered result. -/
theorem step_pushResult_skel (s : StoreState) (m : String) (vals : List JsVal) :
    (step s (Event.pushResult m vals)).fetchedCount = s.fetchedCount + 1 ∧
    (step s (Event.pushResult m vals)).fetchingCount = s.fetchingCount ∧
    (step s (Event.pushResult m vals)).fetching = omitKey s.fetching m := by
  have h := updateProgressBarVisibility_skel (increaseFetchedCount (pushResult s m vals))
  exact ⟨h.2.2.1, h.2.2.2, h.2.1⟩

/-- A delivered preview leaves counters and the fetching map unchanged. -/
theorem step_pushPreview_skel (s : StoreState) (p : String) :
    (step s (Event.pushPreview p)).fetchedCount = s.fetchedCount ∧
    (step s (Event.pushPreview p)).fetchingCount = s.fetchingCount ∧
    (step s (Event.pushPreview p)).fetching = s.fetching := by
  have h := updateProgressBarVisibility_skel (pushPreview s p)
  exact ⟨h.2.2.1, h.2.2.2, h.2.1⟩

/-- Every protocol-valid event preserves the session bookkeeping invariant. -/
theorem sessionInv_step (s : StoreState) (e : Event) (hv : eventValid s e)
    (h : sessionInv s) : sessionInv (step s e) := by
  obtain ⟨hnd, hcnt⟩ := h
  cases e with
  | fetchResults sel =>
      exact ⟨hv, by simp [step, fetchResults]⟩
  | pushResult m vals =>
      obtain ⟨h1, h2, h3⟩ := step_pushResult_skel s m vals
      refine ⟨?_, ?_⟩
      · rw [h3]
        exact omitKey_keys_nodup s.fetching m hnd
      · rw [h1, h2, h3]
        have := countTruthy_omitKey s.fetching m hnd hv
        omega
  | pushPreview p =>
      obtain ⟨h1, h2, h3⟩ := step_pushPreview_skel s p
      rw [sessionInv, h1, h2, h3]
      exact ⟨hnd, hcnt⟩
  | pushValidationError =>
      exact ⟨by simp [step, pushValidationError, resetState, initialState],
        by simp [step, pushValidationError, resetState, initialState, countTruthy]⟩
  | pushGeneralError =>
      exact ⟨by simp [step, pushGeneralError, resetState, initialState],
        by simp [step, pushGeneralError, resetState, initialState, countTruthy]⟩
  | resetState =>
      exact ⟨by simp [step, resetState, initialState],
        by simp [step, resetState, initialState, countTruthy]⟩

/-- The invariant holds along every protocol-valid run. -/
theorem sessionInv_runFrom (s : StoreState) (es : List Event) (hr : ValidRun s es) :
    sessionInv s → sessionInv (runFrom s es) := by
  induction hr with
  | nil s => exact id
  | cons s e es hv hrest ih => exact fun h => ih (sessionInv_step s e hv h)

/-- Once a session is complete, its own remaining events (previews; no further
result can validly arrive) keep it complete with unchanged counters. -/
theorem complete_stable (s : StoreState) (es : List Event) (hr : ValidRun s es) :
    sessionInv s → s.fetchedCount = s.fetchingCount → (∀ e ∈ es, sessionEvent e) →
    (runFrom s es).fetchedCount = (runFrom s es).fetchingCount := by
  induction hr with
  | nil s => exact fun _ hc _ => hc
  | cons s e es hv hrest ih =>
      intro hinv hc hs
      cases e with
      | pushResult m vals =>
          exfalso
          have hpos := countTruthy_pos_of_lookup s.fetching m hv
          have h2 := hinv.2
          omega
      | pushPreview p =>
          obtain ⟨h1, h2, _⟩ := step_pushPreview_skel s p
          refine ih (sessionInv_step s _ trivial hinv) ?_
            (fun e2 he => hs e2 (List.mem_cons_of_mem _ he))
          rw [h1, h2]
          exact hc
      | fetchResults sel => exact (hs _ (List.mem_cons_self _ _)).elim
      | pushValidationError => exact (hs _ (List.mem_cons_self _ _)).elim
      | pushGeneralError => exact (hs _ (List.mem_cons_self _ _)).elim
      | resetState => exact (hs _ (List.mem_cons_self _ _)).elim

/-- Within the own events of one submitted request, the completion transition
(crossing from `fetchedCount ≠ fetchingCount` to equality) happens at most
once, and exactly once iff the run starts incomplete and ends complete. -/
theorem fires_le_one_aux (s : StoreState) (es : List Event) (hr : ValidRun s es) :
    sessionInv s → (∀ e ∈ es, sessionEvent e) →
    fires s es ≤ 1 ∧
      (fires s es = 1 ↔
        s.fetchedCount ≠ s.fetchingCount ∧
          (runFrom s es).fetchedCount = (runFrom s es).fetchingCount) := by
  induction hr with
  | nil s =>
      refine fun _ _ => ⟨by simp [fires], ?_⟩
      constructor
      · intro h1
        simp [fires] at h1
      · rintro ⟨hne, heq⟩
        exact absurd heq hne
  | cons s e es hv hrest ih =>
      intro hinv hs
      have hinv2 := sessionInv_step s e hv hinv
      have hs2 : ∀ e2 ∈ es, sessionEvent e2 := fun e2 he => hs e2 (List.mem_cons_of_mem _ he)
      obtain ⟨ihle, ihiff⟩ := ih hinv2 hs2
      have hrun : runFrom s (e :: es) = runFrom (step s e) es := rfl
      by_cases hcs : s.fetchedCount = s.fetchingCount
      · -- the session is already complete: the event can only be a preview
        have hcs2 : (step s e).fetchedCount = (step s e).fetchingCount := by
          cases e with
          | pushResult m vals =>
              exfalso
              have hpos := countTruthy_pos_of_lookup s.fetching m hv
              have h2 := hinv.2
              omega
          | pushPreview p =>
              obtain ⟨h1, h2, _⟩ := step_pushPreview_skel s p
              rw [h1, h2]
              exact hcs
          | fetchResults sel => exact (hs _ (List.mem_cons_self _ _)).elim
          | pushValidationError => exact (hs _ (List.mem_cons_self _ _)).elim
          | pushGeneralError => exact (hs _ (List.mem_cons_self _ _)).elim
          | resetState => exact (hs _ (List.mem_cons_self _ _)).elim
        have hzero : fires (step s e) es = 0 := by
          rcases Nat.lt_or_ge (fires (step s e) es) 1 with h | h
          · omega
          · exfalso
            have h1 : fires (step s e) es = 1 := by omega
            exact absurd hcs2 (ihiff.1 h1).1
        rw [fires, if_neg (by intro hcon; exact hcon.1 hcs), hzero, hrun]
        refine ⟨by omega, ?_⟩
        constructor
        · intro h1
          omega
        · rintro ⟨hne, _⟩
          exact absurd hcs hne
      · by_cases hcs2 : (step s e).fetchedCount = (step s e).fetchingCount
        · -- this event completes the session
          have hzero : fires (step s e) es = 0 := by
            rcases Nat.lt_or_ge (fires (step s e) es) 1 with h | h
            · omega
            · exfalso
              have h1 : fires (step s e) es = 1 := by omega
              exact absurd hcs2 (ihiff.1 h1).1
          have hfin := complete_stable (step s e) es hrest hinv2 hcs2 hs2
          rw [fires, if_pos ⟨hcs, hcs2⟩, hzero, hrun]
          exact ⟨by omega, by simp [hcs, hfin]⟩
        · -- not a completion step: defer to the tail
          rw [fires, if_neg (by intro hcon; exact hcs2 hcon.2), hrun]
          refine ⟨by omega, ?_⟩
          rw [Nat.zero_add, ihiff]
          constructor
          · rintro ⟨_, hfin⟩
            exact ⟨hcs, hfin⟩
          · rintro ⟨_, hfin⟩
            exact ⟨hcs2, hfin⟩

/-- C2: (a) In every reachable store state the completed count is at most
the submitted count.  (b) Within one submitted request (a `fetchResults`
commit followed by the own deliveries of that request), the session-complete
transition `completedCount == submittedCount` fires at most once, and fires
exactly once iff the request selected at least one metric and the run reaches
the completed state — once per submitted request that runs to completion. -/
theorem session_counts_invariant_and_unique_completion :
    (∀ s : StoreState, Reachable s → s.fetchedCount ≤ s.fetchingCount) ∧
    (∀ (s : StoreState) (sel : List (String × Bool)) (es : List Event),
      (sel.map Prod.fst).Nodup → ValidRun (fetchResults s sel) es →
      (∀ e ∈ es, sessionEvent e) →
      fires (fetchResults s sel) es ≤ 1 ∧
        (fires (fetchResults s sel) es = 1 ↔
          1 ≤ countTruthy sel ∧
            (runFrom (fetchResults s sel) es).fetchedCount =
              (runFrom (fetchResults s sel) es).fetchingCount)) := by
  constructor
  · rintro s ⟨es, hr, rfl⟩
    have hinv := sessionInv_runFrom initialState es hr ⟨List.nodup_nil, rfl⟩
    have h2 := hinv.2
    omega
  · intro s sel es hnd hr hs
    have hinv : sessionInv (fetchResults s sel) := ⟨hnd, by simp [fetchResults]⟩
    obtain ⟨hle, hiff⟩ := fires_le_one_aux (fetchResults s sel) es hr hinv hs
    refine ⟨hle, ?_⟩
    rw [hiff]
    have hfc : (fetchResults s sel).fetchedCount = 0 := rfl
    have hgc : (fetchResults s sel).fetchingCount = countTruthy sel := rfl
    rw [hfc, hgc]
    constructor
    · rintro ⟨hne, hfin⟩
      exact ⟨by omega, hfin⟩
    · rintro ⟨hpos, hfin⟩
      exact ⟨by omega, hfin⟩

/-- Witness for C2: the initial state, and a one-metric request answered by
its single result. -/
theorem session_counts_witness :
    initialState.fetchedCount ≤ initialState.fetchingCount ∧
    (fires (fetchResults initialState [("m1", true)])
        [Event.pushResult "m1" [JsVal.num 300000]] ≤ 1 ∧
      (fires (fetchResults initialState [("m1", true)])
          [Event.pushResult "m1" [JsVal.num 300000]] = 1 ↔
        1 ≤ countTruthy [("m1", true)] ∧
          (runFrom (fetchResults initialState [("m1", true)])
              [Event.pushResult "m1" [JsVal.num 300000]]).fetchedCount =
            (runFrom (fetchResults initialState [("m1", true)])
              [Event.pushResult "m1" [JsVal.num 300000]]).fetchingCount)) := by
  refine ⟨session_counts_invariant_and_unique_completion.1 initialState
    ⟨[], ValidRun.nil _, rfl⟩,
    session_counts_invariant_and_unique_completion.2 initialState [("m1", true)] _
      (by decide) ?_ ?_⟩
  · refine ValidRun.cons _ _ _ ?_ (ValidRun.nil _)
    show lookupKey [("m1", true)] "m1" = some true
    rfl
  · intro e he
    rw [List.mem_singleton] at he
    subst he
    trivial

/-! ## C4: display formatting versus classification -/

/-- Indexing the rows of the formatted results of one metric. -/
theorem resultsFormattedMetric_getElem (d : ℕ) (rds : List ResultDescriptor)
    (vals : List JsVal) (i : ℕ) (rd : ResultDescriptor) (v : JsVal)
    (hrd : rds[i]? = some rd) (hv : vals[i]? = some v) :
    (resultsFormattedMetric d rds vals)[i]? = some ⟨rd.id, formatValue d rd v⟩ := by
  induction rds generalizing vals i with
  | nil => simp at hrd
  | cons r rs ih =>
      cases vals with
      | nil => simp at hv
      | cons w ws =>
          cases i with
          | zero =>
              simp only [List.getElem?_cons_zero, Option.some.injEq] at hrd hv
              subst hrd
              subst hv
              simp [resultsFormattedMetric]
          | succ n =>
              simp only [List.getElem?_cons_succ] at hrd hv
              simpa [resultsFormattedMetric] using ih ws n hrd hv

/-- C4 (amended): For a float-typed result, the judgment shown by the
evaluation cell is the one computed on the display-formatted value — the raw
value rounded to the fixed number of decimals by `toFixed` — not on the
full-precision raw value (which can fall in a different band, see the
counterexample). -/
theorem evalCell_classifies_formatted (d : ℕ) (rds : List ResultDescriptor)
    (vals : List JsVal) (i : ℕ) (rd : ResultDescriptor) (q : ℚ) (bands : List ScoreBand)
    (hrd : rds[i]? = some rd) (hv : vals[i]? = some (JsVal.num q))
    (hty : rd.type = "float") (hsc : rd.scores = some bands) (hlen : 1 < bands.length) :
    evalCellJudgment d rds vals i = classify (toFixed d q) bands := by
  have h1 := resultsFormattedMetric_getElem d rds vals i rd (JsVal.num q) hrd hv
  rw [evalCellJudgment, h1, hrd]
  simp only [hsc]
  rw [formatValue, if_pos hty]
  simp [toNum, hlen]

/-- C4 counterexample: Average Saturation (`cp3_1`, a float result) with
raw value 0.104: the raw value matches no declared band of `cp3_1` (it falls
in the gap between `[0, 0.10]` and `[0.11, 0.60]`), but its display-formatted
value `toFixed(2) = "0.10"` matches the Low band, so the shown judgment
differs from the judgment of the raw value. -/
theorem evalCell_formatted_raw_cex :
    evalCellJudgment 2 MetricsV1.cp3.results
        [JsVal.num 180, JsVal.num 0.104, JsVal.num 0.3, JsVal.num 0.5, JsVal.num 0.2] 1 =
      some ⟨"r1", some 0.00, some 0.10, "Low", none⟩ ∧
    classify 0.104 MetricsV1.cp3s1 = none ∧
    evalCellJudgment 2 MetricsV1.cp3.results
        [JsVal.num 180, JsVal.num 0.104, JsVal.num 0.3, JsVal.num 0.5, JsVal.num 0.2] 1 ≠
      classify 0.104 MetricsV1.cp3s1 := by
  have htf : toFixed 2 (0.104 : ℚ) = 0.10 := by
    norm_num [toFixed, round_eq]
  have hmatch : getJudgment ⟨"r1", some 0.00, some 0.10, "Low", none⟩ (0.10 : ℚ) = true := by
    simp [getJudgment]
    norm_num
  have h1 : evalCellJudgment 2 MetricsV1.cp3.results
      [JsVal.num 180, JsVal.num 0.104, JsVal.num 0.3, JsVal.num 0.5, JsVal.num 0.2] 1 =
      some ⟨"r1", some 0.00, some 0.10, "Low", none⟩ := by
    rw [evalCellJudgment,
      resultsFormattedMetric_getElem 2 MetricsV1.cp3.results _ 1
        ⟨"cp3_1", 1, "float", some MetricsV1.cp3s1⟩ (JsVal.num 0.104) rfl rfl]
    show (match some MetricsV1.cp3s1 with
      | some bands =>
          if bands.length > 1 then
            classify (toNum (formatValue 2 ⟨"cp3_1", 1, "float", some MetricsV1.cp3s1⟩
              (JsVal.num 0.104))) bands
          else none
      | none => none) = some ⟨"r1", some 0.00, some 0.10, "Low", none⟩
    have hfmt : formatValue 2 ⟨"cp3_1", 1, "float", some MetricsV1.cp3s1⟩
        (JsVal.num 0.104) = JsVal.num 0.10 := by
      rw [formatValue, if_pos rfl, htf]
    rw [hfmt]
    show (if (MetricsV1.cp3s1).length > 1 then classify (0.10 : ℚ) MetricsV1.cp3s1 else none) =
      some ⟨"r1", some 0.00, some 0.10, "Low", none⟩
    rw [if_pos (by simp [MetricsV1.cp3s1])]
    rw [classify, MetricsV1.cp3s1, List.find?_cons, hmatch]
  have h2 : classify 0.104 MetricsV1.cp3s1 = none := by
    simp only [classify, MetricsV1.cp3s1, List.find?]
    have g1 : getJudgment ⟨"r1", some 0.00, some 0.10, "Low", none⟩ (0.104 : ℚ) = false := by
      simp [getJudgment]
      norm_num
    have g2 : getJudgment ⟨"r2", some 0.11, some 0.60, "Medium", none⟩ (0.104 : ℚ) = false := by
      simp [getJudgment]
      norm_num
    have g3 : getJudgment ⟨"r3", some 0.61, none, "High", none⟩ (0.104 : ℚ) = false := by
      simp [getJudgment]
      norm_num
    rw [g1, g2, g3]
  refine ⟨h1, h2, ?_⟩
  rw [h1, h2]
  exact Option.noConfusion

/-- Witness for C4 at the inputs of the counterexample. -/
theorem evalCell_classifies_formatted_witness :
    evalCellJudgment 2 MetricsV1.cp3.results
        [JsVal.num 180, JsVal.num 0.104, JsVal.num 0.3, JsVal.num 0.5, JsVal.num 0.2] 1 =
      classify (toFixed 2 0.104) MetricsV1.cp3s1 :=
  evalCell_classifies_formatted 2 MetricsV1.cp3.results
    [JsVal.num 180, JsVal.num 0.104, JsVal.num 0.3, JsVal.num 0.5, JsVal.num 0.2] 1
    ⟨"cp3_1", 1, "float", some MetricsV1.cp3s1⟩ 0.104 MetricsV1.cp3s1
    rfl rfl rfl rfl (by simp [MetricsV1.cp3s1])

/-! ## C8: registry invariants -/

/-- C8: In each of the three registry configs, the metric ids are unique
across the registry, and the declared `ResultDescriptor.index`
values of each metric are exactly `0..N-1` in declaration order, with no gaps
and no duplicates. -/
theorem registry_ids_unique_indices_contiguous :
    ((MetricsV0.registry.map MetricDescriptor.id).Nodup ∧
      ∀ m ∈ MetricsV0.registry,
        m.results.map ResultDescriptor.index = List.range m.results.length) ∧
    ((MetricsV1.registry.map MetricDescriptor.id).Nodup ∧
      ∀ m ∈ MetricsV1.registry,
        m.results.map ResultDescriptor.index = List.range m.results.length) ∧
    ((MetricsV2.registry.map MetricDescriptor.id).Nodup ∧
      ∀ m ∈ MetricsV2.registry,
        m.results.map ResultDescriptor.index = List.range m.results.length) := by
  refine ⟨⟨?_, ?_⟩, ⟨?_, ?_⟩, ⟨?_, ?_⟩⟩
  · have h : MetricsV0.registry.map MetricDescriptor.id = ["m1", "m2"] := rfl
    rw [h]
    decide
  · intro m hm
    fin_cases hm <;> rfl
  · have h : MetricsV1.registry.map MetricDescriptor.id =
        ["cp1", "cp2", "cp3", "cp4", "cp5", "cp6", "cp7", "cp8", "cp9", "cp10",
         "pf1", "pf2", "pf3", "pf4", "pf5", "pf6", "pf7", "pf8", "vg1", "vg2", "ac1"] := rfl
    rw [h]
    decide
  · intro m hm
    fin_cases hm <;> rfl
  · have h : MetricsV2.registry.map MetricDescriptor.id =
        ["cp1", "cp2", "cp3", "cp4", "cp5", "cp6", "cp7", "cp8", "cp9", "cp10",
         "pf1", "pf2", "pf3", "pf4", "pf5", "pf6", "pf7", "pf8", "vg1", "vg2", "ac1"] := rfl
    rw [h]
    decide
  · intro m hm
    fin_cases hm <;> rfl

/-- The older Results.vue variant (`getJoudgement`) tests bands strictly, so
the 500000 boundary value of Scenario E matches no band there: the two
historical classifier variants genuinely disagree, as recorded in the open
question of the spec on boundary inclusivity. -/
theorem getJoudgement_boundary_mismatch :
    List.find? (fun b => getJoudgement b 500000) MetricsV0.m1scores = none := by
  simp only [MetricsV0.m1scores, List.find?]
  have g1 : getJoudgement MetricsV0.m1r1 500000 = false := by
    simp [getJoudgement, MetricsV0.m1r1]
  have g2 : getJoudgement MetricsV0.m1r2 500000 = false := by
    simp [getJoudgement, MetricsV0.m1r2]
    norm_num
  have g3 : getJoudgement MetricsV0.m1r3 500000 = false := by
    simp [getJoudgement, MetricsV0.m1r3]
    norm_num
  rw [g1, g2, g3]

end AIM
